import Mathlib

/-!
Verification of the natural-language specification of `torch/xpu/__init__.py`
(a lazy-initialization facade over an accelerator backend) against a shallow
embedding of that module.  The module's own code is translated directly; the
native bindings (`torch._C.*`) and the helpers of `torch/xpu/_utils.py` and
`torch/xpu/streams.py`, which are not part of the source under review, are
modelled from the spec and marked as such.

State-changing Python functions become Lean functions
`XpuState → Except XpuError α × XpuState`: the pair keeps the state even when
an exception is raised, matching Python semantics where a `raise` does not
roll back global mutations (in this module every `raise` happens before any
mutation, so the state component of an error is always the input state).
-/

namespace TorchXpu

/-- Errors raised by the module.  Constructors carry no message text; each
corresponds to one raise site in the source (or, for `attributeError`, to
reading an attribute that `__enter__` never set). -/
inductive XpuError
  | notImplemented
  | runtimeErrorForkBadReinit
  | assertionNotCompiled
  | assertionInvalidDeviceIndex
  | attributeError
deriving DecidableEq, Repr

/-- Stream handle as exchanged with the native layer: the
(stream id, device index, device type) triple that `current_stream`
reconstructs and `_set_stream_by_id` passes down
(`src/torch/xpu/__init__.py` lines 281-329). -/
structure Stream where
  stream_id : Int
  device_index : Int
  device_type : Int
deriving DecidableEq, Repr

/-- Modelled from the spec: streams are per-device and the stream guard
compares `stream.device` values; all streams handled by this module belong to
the same backend type, so that comparison is the device-index comparison.
The `Stream` class itself lives in `torch/xpu/streams.py`, outside the
source under review. -/
def Stream.device (st : Stream) : Int := st.device_index

/-- Device properties snapshot: the name plus the three capability fields read
by `get_device_capability` (lines 185-190).  Modelled from the spec: the
native `_XpuDeviceProperties` class is not part of the source under review. -/
structure DeviceProps where
  name : String
  max_work_group_size : Nat
  max_num_sub_groups : Nat
  sub_group_sizes : List Nat
deriving DecidableEq, Repr

/-- Result of `get_device_capability`: the dictionary holding the three
capability fields of the properties snapshot (lines 186-190). -/
structure DeviceCapability where
  max_work_group_size : Nat
  max_num_sub_groups : Nat
  sub_group_sizes : List Nat
deriving DecidableEq, Repr

/-- Loose device reference accepted by the public API: absent (`None`) or an
index.  String and structured `torch.device` forms carrying an index resolve
to that index and are represented by `.index`. -/
inductive DeviceRef
  | none
  | index (i : Int)
deriving DecidableEq, Repr

/-- Combined process and native-runtime state visible to the module: the
module-level global `_initialized`, the probes the native layer answers
(`torch._C._has_xpu`, `torch._C._xpu_isInBadFork`), and the runtime state the
native calls read and write (device count, current device, per-device current
streams, device properties).  `nativeInitCount` counts executions of
`torch._C._xpu_init`. -/
structure XpuState where
  compiled : Bool
  badFork : Bool
  initialized : Bool
  nativeInitCount : Nat
  deviceCount : Nat
  currentDevice : Int
  streams : Int → Stream
  props : Int → DeviceProps

/-- Source `_is_compiled` (lines 21-23): return `torch._C._has_xpu`. -/
def _is_compiled (s : XpuState) : Bool := s.compiled

/-- Modelled from the spec: the bad-fork probe `torch._C._xpu_isInBadFork`.
When the attribute is absent the source substitutes `lambda: False`
(line 16); such a process is a state with `badFork = false`. -/
def _is_in_bad_fork (s : XpuState) : Bool := s.badFork

/-- Modelled from the spec: the native device-count query
`torch._C._xpu_getDeviceCount` reports the number of available devices. -/
def _xpu_getDeviceCount (s : XpuState) : Nat := s.deviceCount

/-- Source `device_count` (lines 41-46): 0 when the backend is not compiled
in, otherwise the native count.  The `lru_cache(maxsize=1)` memoization is
omitted: the count is a pure function of the state modelled here, so the
cached and uncached functions coincide. -/
def device_count (s : XpuState) : Nat :=
  if _is_compiled s then _xpu_getDeviceCount s else 0

/-- Source `is_available` (lines 49-52): `device_count() > 0`; never throws. -/
def is_available (s : XpuState) : Bool := decide (0 < device_count s)

/-- Source `is_bf16_supported` (lines 55-57): `return True`, touching no
state and performing no initialization. -/
def is_bf16_supported (s : XpuState) : Except XpuError Bool × XpuState :=
  (.ok true, s)

/-- Source `is_initialized` (lines 60-62):
`_initialized and not _is_in_bad_fork()`. -/
def is_initialized (s : XpuState) : Bool :=
  s.initialized && !(_is_in_bad_fork s)

/-- Modelled from the spec: `torch._C._xpu_init` initializes the native
backend; here it only records that the native initialization ran. -/
def _xpu_init (s : XpuState) : XpuState :=
  { s with nativeInitCount := s.nativeInitCount + 1 }

/-- Source `_lazy_init` (lines 74-93).  The lock and the double check under
it collapse, in this sequential model, to the single leading check; each
`raise` happens before any state change, so errors return the state
unchanged. -/
def _lazy_init (s : XpuState) : Except XpuError Unit × XpuState :=
  if is_initialized s = true then (.ok (), s)
  else if _is_in_bad_fork s = true then (.error .runtimeErrorForkBadReinit, s)
  else if _is_compiled s = false then (.error .assertionNotCompiled, s)
  else (.ok (), { _xpu_init s with initialized := true })

/-- Source `init` (lines 65-71): delegate to `_lazy_init`. -/
def init (s : XpuState) : Except XpuError Unit × XpuState :=
  _lazy_init s

/-- Modelled from the spec: the Device Index Resolver of
`torch/xpu/_utils.py` (not in the source under review).  An integer or an
index-carrying handle resolves to that index; an absent reference resolves to
the currently active device when devices are available and to the negative
sentinel otherwise (the source coerces a `None` result to -1 at the one call
site that can observe it, `StreamContext.__init__` lines 245-247).  The
resolver has no side effects. -/
def _get_device_index (dev : DeviceRef) (s : XpuState) : Int :=
  match dev with
  | .index i => i
  | .none => if 0 < device_count s then s.currentDevice else -1

/-- Modelled from the spec: the native `torch._C._xpu_exchangeDevice` makes
the requested device active and returns the previously active one; a negative
request is a no-op returning -1.  When the backend is not compiled in, the
source replaces the binding by a stub raising `NotImplementedError`
(lines 30-38), captured by the `compiled = false` branch. -/
def _exchange_device (d : Int) (s : XpuState) : Except XpuError Int × XpuState :=
  if _is_compiled s = false then (.error .notImplemented, s)
  else if d < 0 then (.ok (-1), s)
  else (.ok s.currentDevice, { s with currentDevice := d })

/-- Modelled from the spec: `torch._C._xpu_maybeExchangeDevice`, used on
guard exit to restore the remembered device; same observable behaviour as
`_exchange_device` on the states modelled here, including the
`NotImplementedError` stub when the backend is absent (lines 30-38). -/
def _maybe_exchange_device (d : Int) (s : XpuState) : Except XpuError Int × XpuState :=
  if _is_compiled s = false then (.error .notImplemented, s)
  else if d < 0 then (.ok (-1), s)
  else (.ok s.currentDevice, { s with currentDevice := d })

/-- Source class `device` (lines 109-126); `_DeviceGuard` (lines 96-106) is
the same logic fed a raw integer index.  `idx` and `prev_idx` are the two
attributes the class carries. -/
structure device where
  idx : Int
  prev_idx : Int
deriving DecidableEq, Repr

/-- Source `device.__init__` (lines 117-119): resolve the argument
(`optional=True`) and start with `prev_idx = -1`. -/
def device.new (dev : DeviceRef) (s : XpuState) : device :=
  { idx := _get_device_index dev s, prev_idx := -1 }

/-- Source `device.__enter__` (lines 121-122): remember the result of
exchanging the active device for `idx`. -/
def device.enter (g : device) (s : XpuState) : Except XpuError device × XpuState :=
  match _exchange_device g.idx s with
  | (.error e, s') => (.error e, s')
  | (.ok prev, s') => (.ok { g with prev_idx := prev }, s')

/-- Source `device.__exit__` (lines 124-126): restore the remembered device;
returns `False`, so exceptions from the guarded block keep propagating. -/
def device.exit (g : device) (s : XpuState) : Except XpuError device × XpuState :=
  match _maybe_exchange_device g.prev_idx s with
  | (.error e, s') => (.error e, s')
  | (.ok d, s') => (.ok { g with idx := d }, s')

/-- Composition `with device(dev): body` as executed by the `with` statement:
`__enter__` first (if it raises, `__exit__` is not called), then the body,
then `__exit__` on every path, body error or not; since `__exit__` returns
`False` the body's exception keeps propagating unless `__exit__` itself
raises. -/
def with_device (dev : DeviceRef)
    (body : XpuState → Except XpuError Unit × XpuState)
    (s : XpuState) : Except XpuError Unit × XpuState :=
  match device.enter (device.new dev s) s with
  | (.error e, s₁) => (.error e, s₁)
  | (.ok g, s₁) =>
    match body s₁ with
    | (r, s₂) =>
      match device.exit g s₂ with
      | (.error e, s₃) => (.error e, s₃)
      | (.ok _, s₃) => (r, s₃)

/-- Modelled from the spec: the native `torch._C._xpu_setDevice` makes the
given device active. -/
def _xpu_setDevice (d : Int) (s : XpuState) : XpuState :=
  { s with currentDevice := d }

/-- Source `set_device` (lines 144-154): lazy init, resolve, and only call
the native setter for a non-negative index. -/
def set_device (dev : DeviceRef) (s : XpuState) : Except XpuError Unit × XpuState :=
  match _lazy_init s with
  | (.error e, s') => (.error e, s')
  | (.ok _, s') =>
    if 0 ≤ _get_device_index dev s' then
      (.ok (), _xpu_setDevice (_get_device_index dev s') s')
    else (.ok (), s')

/-- Modelled from the spec: the native properties lookup behind
`get_device_properties` returns the immutable snapshot of the given device. -/
def _get_device_properties (d : Int) (s : XpuState) : DeviceProps :=
  s.props d

/-- Source `get_device_properties` (lines 193-207): lazy init, resolve
(`optional=True`), raise `AssertionError` for an index outside
[0, device_count()), otherwise return the snapshot. -/
def get_device_properties (dev : DeviceRef) (s : XpuState) :
    Except XpuError DeviceProps × XpuState :=
  match _lazy_init s with
  | (.error e, s') => (.error e, s')
  | (.ok _, s') =>
    if _get_device_index dev s' < 0 ∨
        (device_count s' : Int) ≤ _get_device_index dev s' then
      (.error .assertionInvalidDeviceIndex, s')
    else (.ok (_get_device_properties (_get_device_index dev s') s'), s')

/-- Source `get_device_name` (lines 157-169):
`get_device_properties(device).name`. -/
def get_device_name (dev : DeviceRef) (s : XpuState) :
    Except XpuError String × XpuState :=
  match get_device_properties dev s with
  | (.error e, s') => (.error e, s')
  | (.ok p, s') => (.ok p.name, s')

/-- Source `get_device_capability` (lines 172-190): the dictionary built from
the three capability fields of `get_device_properties(device)`. -/
def get_device_capability (dev : DeviceRef) (s : XpuState) :
    Except XpuError DeviceCapability × XpuState :=
  match get_device_properties dev s with
  | (.error e, s') => (.error e, s')
  | (.ok p, s') =>
    (.ok { max_work_group_size := p.max_work_group_size,
           max_num_sub_groups := p.max_num_sub_groups,
           sub_group_sizes := p.sub_group_sizes }, s')

/-- Modelled from the spec: the native `torch._C._xpu_getDevice` reports the
currently active device. -/
def _xpu_getDevice (s : XpuState) : Int := s.currentDevice

/-- Source `current_device` (lines 210-213): lazy init, then the native
query. -/
def current_device (s : XpuState) : Except XpuError Int × XpuState :=
  match _lazy_init s with
  | (.error e, s') => (.error e, s')
  | (.ok _, s') => (.ok (_xpu_getDevice s'), s')

/-- Modelled from the spec: the native `torch._C._xpu_getCurrentStream`
returns the (id, device index, device type) triple of the given device's
current stream; a negative index means the currently active device. -/
def _xpu_getCurrentStream (d : Int) (s : XpuState) : Stream :=
  if d < 0 then s.streams s.currentDevice else s.streams d

/-- Source `current_stream` (lines 314-329): lazy init, native query on the
resolved index (`optional=True`), and reconstruction of a `Stream` from the
returned triple. -/
def current_stream (dev : DeviceRef) (s : XpuState) :
    Except XpuError Stream × XpuState :=
  match _lazy_init s with
  | (.error e, s') => (.error e, s')
  | (.ok _, s') =>
    (.ok { stream_id := (_xpu_getCurrentStream (_get_device_index dev s') s').stream_id,
           device_index := (_xpu_getCurrentStream (_get_device_index dev s') s').device_index,
           device_type := (_xpu_getCurrentStream (_get_device_index dev s') s').device_type },
     s')

/-- Modelled from the spec: the native `torch._C._xpu_setStream` installs the
given stream as the current stream of the device it belongs to; it does not
change the active device. -/
def _xpu_setStream (stream_id device_index device_type : Int)
    (s : XpuState) : XpuState :=
  { s with streams := fun i =>
      if i = device_index then
        { stream_id := stream_id, device_index := device_index,
          device_type := device_type }
      else s.streams i }

/-- Source `_set_stream_by_id` (lines 281-292): forward the triple to the
native setter. -/
def _set_stream_by_id (stream_id device_index device_type : Int)
    (s : XpuState) : XpuState :=
  _xpu_setStream stream_id device_index device_type s

/-- Source `set_stream` (lines 295-311): no-op on `None`, otherwise lazy init
and `_set_stream_by_id` on the stream's triple. -/
def set_stream (stream : Option Stream) (s : XpuState) :
    Except XpuError Unit × XpuState :=
  match stream with
  | Option.none => (.ok (), s)
  | Option.some st =>
    match _lazy_init s with
    | (.error e, s') => (.error e, s')
    | (.ok _, s') =>
      (.ok (), _set_stream_by_id st.stream_id st.device_index st.device_type s')

/-- Modelled from the spec: the native `torch._C._xpu_synchronize` blocks
until the device drains; it changes none of the state modelled here. -/
def _xpu_synchronize (_d : Int) (s : XpuState) : XpuState := s

/-- Source `synchronize` (lines 332-342): lazy init, resolve, native blocking
wait. -/
def synchronize (dev : DeviceRef) (s : XpuState) :
    Except XpuError Unit × XpuState :=
  match _lazy_init s with
  | (.error e, s') => (.error e, s')
  | (.ok _, s') => (.ok (), _xpu_synchronize (_get_device_index dev s') s')

/-- Source class `StreamContext` (lines 229-269): the target stream, the
index resolved at construction, and the two previous-stream attributes that
`__enter__` may set (absent before then, hence `Option`). -/
structure StreamContext where
  stream : Option Stream
  idx : Int
  src_prev_stream : Option Stream
  dst_prev_stream : Option Stream
deriving DecidableEq, Repr

/-- Source `StreamContext.__init__` (lines 242-247): keep the stream, resolve
`None` (`optional=True`) and coerce an unresolved result to -1. -/
def StreamContext.new (stream : Option Stream) (s : XpuState) : StreamContext :=
  { stream := stream, idx := _get_device_index DeviceRef.none s,
    src_prev_stream := Option.none, dst_prev_stream := Option.none }

/-- Source `StreamContext.__enter__` (lines 249-259): no-op when the stream
is `None` or no device is available; otherwise remember the current stream of
the current device, and if the target stream lives on another device, enter a
device guard on that device to remember its current stream too, then make the
target stream current.  The guard's `__exit__` runs even when the query in
its body raises. -/
def StreamContext.enter (c : StreamContext) (s : XpuState) :
    Except XpuError StreamContext × XpuState :=
  match c.stream with
  | Option.none => (.ok c, s)
  | Option.some cur_stream =>
    if c.idx = -1 then (.ok c, s)
    else
      match current_stream DeviceRef.none s with
      | (.error e, s₁) => (.error e, s₁)
      | (.ok src_prev, s₁) =>
        if src_prev.device = cur_stream.device then
          match set_stream (Option.some cur_stream) s₁ with
          | (.error e, s₂) => (.error e, s₂)
          | (.ok _, s₂) =>
            (.ok { c with src_prev_stream := Option.some src_prev }, s₂)
        else
          match device.enter (device.new (DeviceRef.index cur_stream.device) s₁) s₁ with
          | (.error e, s₂) => (.error e, s₂)
          | (.ok g, s₂) =>
            match current_stream (DeviceRef.index cur_stream.device) s₂ with
            | (.error e, s₃) =>
              (match device.exit g s₃ with
               | (.error e', s₄) => (.error e', s₄)
               | (.ok _, s₄) => (.error e, s₄))
            | (.ok dst_prev, s₃) =>
              match device.exit g s₃ with
              | (.error e, s₄) => (.error e, s₄)
              | (.ok _, s₄) =>
                match set_stream (Option.some cur_stream) s₄ with
                | (.error e, s₅) => (.error e, s₅)
                | (.ok _, s₅) =>
                  (.ok { c with src_prev_stream := Option.some src_prev,
                                dst_prev_stream := Option.some dst_prev }, s₅)

/-- Source `StreamContext.__exit__` (lines 261-269): no-op in the same cases
as `__enter__`; otherwise restore in reverse order, the destination device's
previous stream first (when a device switch occurred), then the original
device's previous stream.  Reading an attribute `__enter__` never set is the
`attributeError` branch. -/
def StreamContext.exit (c : StreamContext) (s : XpuState) :
    Except XpuError Unit × XpuState :=
  match c.stream with
  | Option.none => (.ok (), s)
  | Option.some cur_stream =>
    if c.idx = -1 then (.ok (), s)
    else
      match c.src_prev_stream with
      | Option.none => (.error .attributeError, s)
      | Option.some src_prev =>
        if src_prev.device = cur_stream.device then
          set_stream (Option.some src_prev) s
        else
          match c.dst_prev_stream with
          | Option.none => (.error .attributeError, s)
          | Option.some dst_prev =>
            match set_stream (Option.some dst_prev) s with
            | (.error e, s₁) => (.error e, s₁)
            | (.ok _, s₁) => set_stream (Option.some src_prev) s₁

/-- Source `stream` (lines 272-278): wrap the stream in a `StreamContext`. -/
def stream (st : Option Stream) (s : XpuState) : StreamContext :=
  StreamContext.new st s

/-- Public operations of the module, used to quantify over arbitrary call
sequences when stating process-wide invariants of the initialization state. -/
inductive Op
  | initOp
  | setDeviceOp (d : DeviceRef)
  | currentDeviceOp
  | getPropsOp (d : DeviceRef)
  | getNameOp (d : DeviceRef)
  | getCapabilityOp (d : DeviceRef)
  | currentStreamOp (d : DeviceRef)
  | setStreamOp (st : Option Stream)
  | synchronizeOp (d : DeviceRef)
  | deviceCountOp
  | isAvailableOp
  | isInitializedOp
  | isBf16SupportedOp
  | deviceGuardOp (d : DeviceRef)
  | streamGuardOp (st : Option Stream)

/-- State reached after one public operation; Python exceptions leave the
already-performed global mutations in place, so the state component is kept
on the error paths as well. -/
def execOp (op : Op) (s : XpuState) : XpuState :=
  match op with
  | .initOp => (init s).2
  | .setDeviceOp d => (set_device d s).2
  | .currentDeviceOp => (current_device s).2
  | .getPropsOp d => (get_device_properties d s).2
  | .getNameOp d => (get_device_name d s).2
  | .getCapabilityOp d => (get_device_capability d s).2
  | .currentStreamOp d => (current_stream d s).2
  | .setStreamOp st => (set_stream st s).2
  | .synchronizeOp d => (synchronize d s).2
  | .deviceCountOp => s
  | .isAvailableOp => s
  | .isInitializedOp => s
  | .isBf16SupportedOp => (is_bf16_supported s).2
  | .deviceGuardOp d =>
    match device.enter (device.new d s) s with
    | (.error _, s₁) => s₁
    | (.ok g, s₁) => (device.exit g s₁).2
  | .streamGuardOp st =>
    match StreamContext.enter (StreamContext.new st s) s with
    | (.error _, s₁) => s₁
    | (.ok c, s₁) => (StreamContext.exit c s₁).2

/-- State reached after a sequence of public operations. -/
def runOps (ops : List Op) (s : XpuState) : XpuState :=
  ops.foldl (fun t op => execOp op t) s

/-- One-step relation on the initialization bookkeeping: the flag never drops
back, and the native initialization counter moves only together with the
flag, by at most one. -/
def StepInv (s t : XpuState) : Prop :=
  (s.initialized = true → t.initialized = true) ∧
  (t.initialized = s.initialized → t.nativeInitCount = s.nativeInitCount) ∧
  t.nativeInitCount ≤ s.nativeInitCount + 1

lemma stepInv_refl (s : XpuState) : StepInv s s :=
  ⟨fun h => h, fun _ => rfl, Nat.le_succ _⟩

lemma stepInv_of_eq {s t : XpuState} (h1 : t.initialized = s.initialized)
    (h2 : t.nativeInitCount = s.nativeInitCount) : StepInv s t :=
  ⟨fun h => h1.trans h, fun _ => h2, h2 ▸ Nat.le_succ _⟩

lemma stepInv_trans {s t u : XpuState} (h1 : StepInv s t) (h2 : StepInv t u) :
    StepInv s u := by
  obtain ⟨m1, e1, l1⟩ := h1
  obtain ⟨m2, e2, l2⟩ := h2
  refine ⟨fun h => m2 (m1 h), ?_, ?_⟩
  · intro h
    cases hs : s.initialized with
    | true =>
      have ht := m1 hs
      have hu := m2 ht
      rw [e2 (hu.trans ht.symm), e1 (ht.trans hs.symm)]
    | false =>
      cases ht : t.initialized with
      | true =>
        have hu := m2 ht
        rw [h, hs] at hu
        exact absurd hu (by simp)
      | false =>
        rw [e2 (by rw [ht, h, hs]), e1 (by rw [ht, hs])]
  · cases hs : s.initialized with
    | true =>
      have ht := m1 hs
      have hu := m2 ht
      rw [e2 (hu.trans ht.symm), e1 (ht.trans hs.symm)]
      exact Nat.le_succ _
    | false =>
      cases ht : t.initialized with
      | true =>
        have hu := m2 ht
        rw [e2 (hu.trans ht.symm)]
        exact l1
      | false =>
        rw [e1 (by rw [ht, hs])] at l2
        exact l2

lemma stepInv_lazy (s : XpuState) : StepInv s (_lazy_init s).2 := by
  unfold _lazy_init
  split
  · exact stepInv_refl s
  · split
    · exact stepInv_refl s
    · split
      · exact stepInv_refl s
      · rename_i hini hbf hcomp
        refine ⟨fun _ => rfl, ?_, Nat.le_refl _⟩
        intro h
        exfalso
        simp only [_is_in_bad_fork, Bool.not_eq_true] at hbf
        exact hini (by simp [is_initialized, _is_in_bad_fork, ← h, hbf])

lemma stepInv_lazy_eq {s t : XpuState} {r : Except XpuError Unit}
    (h : _lazy_init s = (r, t)) : StepInv s t := by
  have := stepInv_lazy s
  rw [h] at this
  exact this

lemma stepInv_snd_set_device (d : DeviceRef) (s : XpuState) :
    StepInv s (set_device d s).2 := by
  unfold set_device
  split
  · rename_i e s' h
    exact stepInv_lazy_eq h
  · rename_i u s' h
    split
    · exact stepInv_trans (stepInv_lazy_eq h) (stepInv_of_eq rfl rfl)
    · exact stepInv_lazy_eq h

lemma stepInv_snd_get_props (d : DeviceRef) (s : XpuState) :
    StepInv s (get_device_properties d s).2 := by
  unfold get_device_properties
  split
  · rename_i e s' h
    exact stepInv_lazy_eq h
  · rename_i u s' h
    split
    · exact stepInv_lazy_eq h
    · exact stepInv_lazy_eq h

lemma stepInv_snd_get_name (d : DeviceRef) (s : XpuState) :
    StepInv s (get_device_name d s).2 := by
  unfold get_device_name
  split <;> rename_i h <;>
    · have := stepInv_snd_get_props d s
      rw [h] at this
      exact this

lemma stepInv_snd_get_capability (d : DeviceRef) (s : XpuState) :
    StepInv s (get_device_capability d s).2 := by
  unfold get_device_capability
  split <;> rename_i h <;>
    · have := stepInv_snd_get_props d s
      rw [h] at this
      exact this

lemma stepInv_snd_current_device (s : XpuState) :
    StepInv s (current_device s).2 := by
  unfold current_device
  split <;> rename_i h <;> exact stepInv_lazy_eq h

lemma stepInv_snd_current_stream (d : DeviceRef) (s : XpuState) :
    StepInv s (current_stream d s).2 := by
  unfold current_stream
  split <;> rename_i h <;> exact stepInv_lazy_eq h

lemma stepInv_snd_set_stream (st : Option Stream) (s : XpuState) :
    StepInv s (set_stream st s).2 := by
  unfold set_stream
  split
  · exact stepInv_refl s
  · split
    · rename_i h
      exact stepInv_lazy_eq h
    · rename_i h
      exact stepInv_trans (stepInv_lazy_eq h) (stepInv_of_eq rfl rfl)

lemma stepInv_snd_synchronize (d : DeviceRef) (s : XpuState) :
    StepInv s (synchronize d s).2 := by
  unfold synchronize
  split <;> rename_i h <;> exact stepInv_lazy_eq h

lemma stepInv_exchange_eq {d : Int} {s t : XpuState} {r : Except XpuError Int}
    (h : _exchange_device d s = (r, t)) : StepInv s t := by
  unfold _exchange_device at h
  split at h <;> [skip; split at h] <;>
    · injection h with h1 h2
      exact h2 ▸ stepInv_of_eq rfl rfl

lemma stepInv_maybe_exchange_eq {d : Int} {s t : XpuState}
    {r : Except XpuError Int}
    (h : _maybe_exchange_device d s = (r, t)) : StepInv s t := by
  unfold _maybe_exchange_device at h
  split at h <;> [skip; split at h] <;>
    · injection h with h1 h2
      exact h2 ▸ stepInv_of_eq rfl rfl

lemma stepInv_device_enter_eq {g : device} {s t : XpuState}
    {r : Except XpuError device}
    (h : device.enter g s = (r, t)) : StepInv s t := by
  unfold device.enter at h
  split at h <;> rename_i heq <;>
    · injection h with h1 h2
      exact h2 ▸ stepInv_exchange_eq heq

lemma stepInv_device_exit_eq {g : device} {s t : XpuState}
    {r : Except XpuError device}
    (h : device.exit g s = (r, t)) : StepInv s t := by
  unfold device.exit at h
  split at h <;> rename_i heq <;>
    · injection h with h1 h2
      exact h2 ▸ stepInv_maybe_exchange_eq heq

lemma stepInv_current_stream_eq {d : DeviceRef} {s t : XpuState}
    {r : Except XpuError Stream}
    (h : current_stream d s = (r, t)) : StepInv s t := by
  have := stepInv_snd_current_stream d s
  rw [h] at this
  exact this

lemma stepInv_set_stream_eq {st : Option Stream} {s t : XpuState}
    {r : Except XpuError Unit}
    (h : set_stream st s = (r, t)) : StepInv s t := by
  have := stepInv_snd_set_stream st s
  rw [h] at this
  exact this

lemma stepInv_stream_enter_eq {c : StreamContext} {s t : XpuState}
    {r : Except XpuError StreamContext}
    (h : StreamContext.enter c s = (r, t)) : StepInv s t := by
  unfold StreamContext.enter at h
  split at h
  · injection h with h1 h2
    exact h2 ▸ stepInv_refl s
  · split at h
    · injection h with h1 h2
      exact h2 ▸ stepInv_refl s
    · split at h
      · rename_i heq
        injection h with h1 h2
        exact h2 ▸ stepInv_current_stream_eq heq
      · rename_i heq
        split at h
        · split at h <;> rename_i heq2 <;>
            · injection h with h1 h2
              exact h2 ▸ stepInv_trans (stepInv_current_stream_eq heq)
                (stepInv_set_stream_eq heq2)
        · split at h
          · rename_i heq2
            injection h with h1 h2
            exact h2 ▸ stepInv_trans (stepInv_current_stream_eq heq)
              (stepInv_device_enter_eq heq2)
          · rename_i heq2
            split at h
            · rename_i heq3
              split at h <;> rename_i heq4 <;>
                · injection h with h1 h2
                  exact h2 ▸ stepInv_trans (stepInv_current_stream_eq heq)
                    (stepInv_trans (stepInv_device_enter_eq heq2)
                      (stepInv_trans (stepInv_current_stream_eq heq3)
                        (stepInv_device_exit_eq heq4)))
            · rename_i heq3
              split at h
              · rename_i heq4
                injection h with h1 h2
                exact h2 ▸ stepInv_trans (stepInv_current_stream_eq heq)
                  (stepInv_trans (stepInv_device_enter_eq heq2)
                    (stepInv_trans (stepInv_current_stream_eq heq3)
                      (stepInv_device_exit_eq heq4)))
              · rename_i heq4
                split at h <;> rename_i heq5 <;>
                  · injection h with h1 h2
                    exact h2 ▸ stepInv_trans (stepInv_current_stream_eq heq)
                      (stepInv_trans (stepInv_device_enter_eq heq2)
                        (stepInv_trans (stepInv_current_stream_eq heq3)
                          (stepInv_trans (stepInv_device_exit_eq heq4)
                            (stepInv_set_stream_eq heq5))))

lemma stepInv_stream_exit_eq {c : StreamContext} {s t : XpuState}
    {r : Except XpuError Unit}
    (h : StreamContext.exit c s = (r, t)) : StepInv s t := by
  unfold StreamContext.exit at h
  split at h
  · injection h with h1 h2
    exact h2 ▸ stepInv_refl s
  · split at h
    · injection h with h1 h2
      exact h2 ▸ stepInv_refl s
    · split at h
      · injection h with h1 h2
        exact h2 ▸ stepInv_refl s
      · split at h
        · exact stepInv_set_stream_eq h
        · split at h
          · injection h with h1 h2
            exact h2 ▸ stepInv_refl s
          · split at h
            · rename_i heq
              injection h with h1 h2
              exact h2 ▸ stepInv_set_stream_eq heq
            · rename_i heq
              exact stepInv_trans (stepInv_set_stream_eq heq)
                (stepInv_set_stream_eq h)

lemma stepInv_execOp (op : Op) (s : XpuState) : StepInv s (execOp op s) := by
  cases op with
  | initOp => exact stepInv_lazy s
  | setDeviceOp d => exact stepInv_snd_set_device d s
  | currentDeviceOp => exact stepInv_snd_current_device s
  | getPropsOp d => exact stepInv_snd_get_props d s
  | getNameOp d => exact stepInv_snd_get_name d s
  | getCapabilityOp d => exact stepInv_snd_get_capability d s
  | currentStreamOp d => exact stepInv_snd_current_stream d s
  | setStreamOp st => exact stepInv_snd_set_stream st s
  | synchronizeOp d => exact stepInv_snd_synchronize d s
  | deviceCountOp => exact stepInv_refl s
  | isAvailableOp => exact stepInv_refl s
  | isInitializedOp => exact stepInv_refl s
  | isBf16SupportedOp => exact stepInv_refl s
  | deviceGuardOp d =>
    simp only [execOp]
    split
    · rename_i heq
      exact stepInv_device_enter_eq heq
    · rename_i heq
      refine stepInv_trans (stepInv_device_enter_eq heq) ?_
      rcases hx : device.exit _ _ with ⟨r, t⟩
      exact stepInv_device_exit_eq hx
  | streamGuardOp st =>
    simp only [execOp]
    split
    · rename_i heq
      exact stepInv_stream_enter_eq heq
    · rename_i heq
      refine stepInv_trans (stepInv_stream_enter_eq heq) ?_
      rcases hx : StreamContext.exit _ _ with ⟨r, t⟩
      exact stepInv_stream_exit_eq hx

lemma stepInv_runOps (ops : List Op) (s : XpuState) :
    StepInv s (runOps ops s) := by
  induction ops generalizing s with
  | nil => exact stepInv_refl s
  | cons op ops ih =>
    exact stepInv_trans (stepInv_execOp op s) (ih (execOp op s))

lemma lazy_init_state (s : XpuState) :
    (_lazy_init s).2 = s ∨
    (_lazy_init s).2 = { s with initialized := true,
                                nativeInitCount := s.nativeInitCount + 1 } := by
  unfold _lazy_init _xpu_init
  split
  · exact Or.inl rfl
  split
  · exact Or.inl rfl
  split
  · exact Or.inl rfl
  · exact Or.inr rfl

@[simp] lemma lazy_init_compiled (s : XpuState) :
    ((_lazy_init s).2).compiled = s.compiled := by
  rcases lazy_init_state s with h | h <;> rw [h]

@[simp] lemma lazy_init_badFork (s : XpuState) :
    ((_lazy_init s).2).badFork = s.badFork := by
  rcases lazy_init_state s with h | h <;> rw [h]

@[simp] lemma lazy_init_deviceCount (s : XpuState) :
    ((_lazy_init s).2).deviceCount = s.deviceCount := by
  rcases lazy_init_state s with h | h <;> rw [h]

@[simp] lemma lazy_init_currentDevice (s : XpuState) :
    ((_lazy_init s).2).currentDevice = s.currentDevice := by
  rcases lazy_init_state s with h | h <;> rw [h]

@[simp] lemma lazy_init_streams (s : XpuState) :
    ((_lazy_init s).2).streams = s.streams := by
  rcases lazy_init_state s with h | h <;> rw [h]

@[simp] lemma lazy_init_props (s : XpuState) :
    ((_lazy_init s).2).props = s.props := by
  rcases lazy_init_state s with h | h <;> rw [h]

@[simp] lemma lazy_init_device_count (s : XpuState) :
    device_count (_lazy_init s).2 = device_count s := by
  unfold device_count _is_compiled _xpu_getDeviceCount
  rw [lazy_init_compiled, lazy_init_deviceCount]

lemma lazy_init_ok (s : XpuState) (hc : s.compiled = true)
    (hb : s.badFork = false) :
    _lazy_init s = (Except.ok (), (_lazy_init s).2) ∧
    ((_lazy_init s).2).initialized = true := by
  unfold _lazy_init _xpu_init
  simp only [is_initialized, _is_in_bad_fork, _is_compiled, hb, hc,
    Bool.not_false, Bool.and_true]
  by_cases hi : s.initialized = true
  · simp [hi]
  · simp [hi]

lemma lazy_init_of_inited (s : XpuState) (h : is_initialized s = true) :
    _lazy_init s = (Except.ok (), s) := by
  unfold _lazy_init
  simp [h]

lemma get_device_properties_out_of_range (s : XpuState) (i : Int)
    (hc : s.compiled = true) (hb : s.badFork = false)
    (h : i < 0 ∨ (device_count s : Int) ≤ i) :
    get_device_properties (DeviceRef.index i) s =
      (.error .assertionInvalidDeviceIndex, (_lazy_init s).2) := by
  obtain ⟨hok, _⟩ := lazy_init_ok s hc hb
  rw [get_device_properties, hok]
  simp only [_get_device_index, lazy_init_device_count]
  rw [if_pos h]

lemma get_device_properties_in_range (s : XpuState) (i : Int)
    (hc : s.compiled = true) (hb : s.badFork = false)
    (h0 : 0 ≤ i) (h1 : i < (device_count s : Int)) :
    get_device_properties (DeviceRef.index i) s =
      (.ok (s.props i), (_lazy_init s).2) := by
  obtain ⟨hok, _⟩ := lazy_init_ok s hc hb
  rw [get_device_properties, hok]
  simp only [_get_device_index, lazy_init_device_count]
  rw [if_neg (by omega)]
  simp [_get_device_properties]

lemma exchange_device_nonneg (d : Int) (u : XpuState)
    (hcomp : u.compiled = true) (hd : 0 ≤ d) :
    _exchange_device d u =
      (.ok u.currentDevice, { u with currentDevice := d }) := by
  rw [_exchange_device]
  simp only [_is_compiled, hcomp]
  rw [if_neg (by simp), if_neg (by omega)]

lemma maybe_exchange_device_nonneg (d : Int) (u : XpuState)
    (hcomp : u.compiled = true) (hd : 0 ≤ d) :
    _maybe_exchange_device d u =
      (.ok u.currentDevice, { u with currentDevice := d }) := by
  rw [_maybe_exchange_device]
  simp only [_is_compiled, hcomp]
  rw [if_neg (by simp), if_neg (by omega)]

lemma set_stream_some_eq (st : Stream) (u : XpuState)
    (hu : is_initialized u = true) :
    set_stream (Option.some st) u =
      (.ok (), { u with streams := fun i =>
        if i = st.device_index then st else u.streams i }) := by
  simp only [set_stream, lazy_init_of_inited u hu, _set_stream_by_id,
    _xpu_setStream]

lemma current_stream_index_eq (i : Int) (u : XpuState)
    (hu : is_initialized u = true) (h0 : 0 ≤ i) :
    current_stream (DeviceRef.index i) u = (.ok (u.streams i), u) := by
  rw [current_stream, lazy_init_of_inited u hu]
  simp only [_get_device_index, _xpu_getCurrentStream]
  rw [if_neg (by omega)]

/-- Concrete device-properties snapshot used by the instance theorems. -/
def testProps : DeviceProps :=
  { name := "Intel GPU", max_work_group_size := 1024,
    max_num_sub_groups := 64, sub_group_sizes := [8, 16, 32] }

/-- Concrete two-device process state used by the instance theorems: backend
compiled in, no bad fork, not yet initialized, current device 0, one default
stream per device. -/
def testState : XpuState :=
  { compiled := true, badFork := false, initialized := false,
    nativeInitCount := 0, deviceCount := 2, currentDevice := 0,
    streams := fun i =>
      { stream_id := i, device_index := i, device_type := 12 },
    props := fun _ => testProps }

/-- Concrete state of a process that initialized and then forked. -/
def badForkState : XpuState :=
  { testState with badFork := true, initialized := true }

/-- Concrete state of a process whose backend was not compiled in. -/
def notCompiledState : XpuState :=
  { testState with compiled := false }

/-- C3: with an operational backend (compiled in, not in a bad fork),
`get_device_properties` raises the invalid-index assertion for every index
outside [0, device_count()) and, for every index inside that range, returns
the properties snapshot in the state reached by lazy initialization, which is
then initialized. -/
theorem get_device_properties_validates_index (s : XpuState) (i : Int)
    (hc : s.compiled = true) (hb : s.badFork = false) :
    (i < 0 ∨ (device_count s : Int) ≤ i →
      get_device_properties (DeviceRef.index i) s =
        (.error .assertionInvalidDeviceIndex, (_lazy_init s).2)) ∧
    (0 ≤ i → i < (device_count s : Int) →
      get_device_properties (DeviceRef.index i) s =
        (.ok (s.props i), (_lazy_init s).2) ∧
      ((_lazy_init s).2).initialized = true) := by
  refine ⟨fun h => get_device_properties_out_of_range s i hc hb h,
    fun h0 h1 => ⟨get_device_properties_in_range s i hc hb h0 h1, ?_⟩⟩
  exact (lazy_init_ok s hc hb).2

theorem get_device_properties_validates_index_witness :
    get_device_properties (DeviceRef.index 5) testState =
      (.error .assertionInvalidDeviceIndex, (_lazy_init testState).2) ∧
    get_device_properties (DeviceRef.index 1) testState =
      (.ok (testState.props 1), (_lazy_init testState).2) :=
  ⟨(get_device_properties_validates_index testState 5 rfl rfl).1
      (Or.inr (by decide)),
   ((get_device_properties_validates_index testState 1 rfl rfl).2
      (by decide) (by decide)).1⟩

/-- C7: for every valid index, `get_device_name` returns exactly the `name`
field of the snapshot that `get_device_properties` returns, and
`get_device_capability` returns exactly the three capability fields of that
same snapshot. -/
theorem name_capability_derive_from_properties (s : XpuState) (i : Int)
    (hc : s.compiled = true) (hb : s.badFork = false)
    (h0 : 0 ≤ i) (h1 : i < (device_count s : Int)) :
    ∃ p t, get_device_properties (DeviceRef.index i) s = (.ok p, t) ∧
      get_device_name (DeviceRef.index i) s = (.ok p.name, t) ∧
      get_device_capability (DeviceRef.index i) s =
        (.ok { max_work_group_size := p.max_work_group_size,
               max_num_sub_groups := p.max_num_sub_groups,
               sub_group_sizes := p.sub_group_sizes }, t) := by
  have h := get_device_properties_in_range s i hc hb h0 h1
  exact ⟨s.props i, (_lazy_init s).2, h,
    by rw [get_device_name, h], by rw [get_device_capability, h]⟩

theorem name_capability_derive_from_properties_witness :
    ∃ p t, get_device_properties (DeviceRef.index 0) testState = (.ok p, t) ∧
      get_device_name (DeviceRef.index 0) testState = (.ok p.name, t) ∧
      get_device_capability (DeviceRef.index 0) testState =
        (.ok { max_work_group_size := p.max_work_group_size,
               max_num_sub_groups := p.max_num_sub_groups,
               sub_group_sizes := p.sub_group_sizes }, t) :=
  name_capability_derive_from_properties testState 0 rfl rfl
    (by decide) (by decide)

/-- C6: when the backend is not compiled in, `device_count` returns 0 and
`is_available` returns false; both are total functions of the state (no
exception on any path), and in every state `is_available` is true exactly
when `device_count` is positive. -/
theorem device_count_absent_backend (s : XpuState) :
    (s.compiled = false → device_count s = 0 ∧ is_available s = false) ∧
    (is_available s = true ↔ 0 < device_count s) := by
  constructor
  · intro h
    simp [device_count, _is_compiled, h, is_available]
  · simp [is_available]

theorem device_count_absent_backend_witness :
    device_count notCompiledState = 0 ∧ is_available notCompiledState = false :=
  (device_count_absent_backend notCompiledState).1 rfl

/-- C9: `is_initialized` is true exactly when the `_initialized` flag is set
and the bad-fork probe answers false; in particular a process that
initialized and then forked reports false although the flag is still set, and
the function is total (it never raises). -/
theorem is_initialized_iff (s : XpuState) :
    (is_initialized s = true ↔ s.initialized = true ∧ s.badFork = false) ∧
    (s.initialized = true → s.badFork = true → is_initialized s = false) := by
  constructor
  · simp [is_initialized, _is_in_bad_fork, Bool.and_eq_true, Bool.not_eq_true']
  · intro h1 h2
    simp [is_initialized, _is_in_bad_fork, h1, h2]

theorem is_initialized_iff_witness : is_initialized badForkState = false :=
  (is_initialized_iff badForkState).2 rfl rfl

/-- C10: `is_bf16_supported` returns `True` in every process state —
including states with the backend absent, no device, or initialization never
run — raising nothing and leaving the state untouched (it never triggers
lazy initialization). -/
theorem is_bf16_supported_always_true (s : XpuState) :
    is_bf16_supported s = (Except.ok true, s) := rfl

/-- C5: in a bad-fork process state, every operation that triggers lazy
initialization returns the fatal re-initialization error with the state
unchanged, so the native initialization call is never reached; and a
not-yet-initialized process without compiled-in backend fails lazy
initialization with the assertion error. -/
theorem bad_fork_and_not_compiled_fail (s : XpuState) :
    (s.badFork = true →
      _lazy_init s = (.error .runtimeErrorForkBadReinit, s) ∧
      init s = (.error .runtimeErrorForkBadReinit, s) ∧
      (∀ d, set_device d s = (.error .runtimeErrorForkBadReinit, s)) ∧
      current_device s = (.error .runtimeErrorForkBadReinit, s) ∧
      (∀ d, get_device_properties d s =
        (.error .runtimeErrorForkBadReinit, s)) ∧
      (∀ d, get_device_name d s = (.error .runtimeErrorForkBadReinit, s)) ∧
      (∀ d, get_device_capability d s =
        (.error .runtimeErrorForkBadReinit, s)) ∧
      (∀ d, current_stream d s = (.error .runtimeErrorForkBadReinit, s)) ∧
      (∀ st, set_stream (Option.some st) s =
        (.error .runtimeErrorForkBadReinit, s)) ∧
      (∀ d, synchronize d s = (.error .runtimeErrorForkBadReinit, s))) ∧
    (s.badFork = false → s.compiled = false → s.initialized = false →
      _lazy_init s = (.error .assertionNotCompiled, s)) := by
  constructor
  · intro h
    have hL : _lazy_init s = (.error .runtimeErrorForkBadReinit, s) := by
      unfold _lazy_init
      simp [is_initialized, _is_in_bad_fork, h]
    refine ⟨hL, hL, fun d => ?_, ?_, fun d => ?_, fun d => ?_, fun d => ?_,
      fun d => ?_, fun st => ?_, fun d => ?_⟩ <;>
      simp [init, set_device, current_device, get_device_properties,
        get_device_name, get_device_capability, current_stream, set_stream,
        synchronize, hL]
  · intro hb hc hi
    unfold _lazy_init
    simp [is_initialized, _is_in_bad_fork, _is_compiled, hb, hc, hi]

theorem bad_fork_and_not_compiled_fail_witness :
    (_lazy_init badForkState =
        (.error .runtimeErrorForkBadReinit, badForkState) ∧
      init badForkState = (.error .runtimeErrorForkBadReinit, badForkState) ∧
      (∀ d, set_device d badForkState =
        (.error .runtimeErrorForkBadReinit, badForkState)) ∧
      current_device badForkState =
        (.error .runtimeErrorForkBadReinit, badForkState) ∧
      (∀ d, get_device_properties d badForkState =
        (.error .runtimeErrorForkBadReinit, badForkState)) ∧
      (∀ d, get_device_name d badForkState =
        (.error .runtimeErrorForkBadReinit, badForkState)) ∧
      (∀ d, get_device_capability d badForkState =
        (.error .runtimeErrorForkBadReinit, badForkState)) ∧
      (∀ d, current_stream d badForkState =
        (.error .runtimeErrorForkBadReinit, badForkState)) ∧
      (∀ st, set_stream (Option.some st) badForkState =
        (.error .runtimeErrorForkBadReinit, badForkState)) ∧
      (∀ d, synchronize d badForkState =
        (.error .runtimeErrorForkBadReinit, badForkState))) ∧
    _lazy_init notCompiledState =
      (.error .assertionNotCompiled, notCompiledState) :=
  ⟨(bad_fork_and_not_compiled_fail badForkState).1 rfl,
   (bad_fork_and_not_compiled_fail notCompiledState).2 rfl rfl rfl⟩

/-- C8 counterexample: on a live two-device state, `get_device_properties`
called with the negative index -1 raises the invalid-index assertion instead
of being a no-op, refuting the claim that a negative index never makes it
fail. -/
theorem negative_index_properties_fails :
    get_device_properties (DeviceRef.index (-1)) testState =
      (.error .assertionInvalidDeviceIndex, (_lazy_init testState).2) :=
  get_device_properties_out_of_range testState (-1) rfl rfl
    (Or.inl (by decide))

/-- C8 amended: `set_device` with a negative index performs lazy
initialization but leaves the current device unchanged and raises nothing;
the device guard entered with a negative index keeps the current device and
raises nothing; `get_device_properties` with an absent reference resolves to
the current device and does not fail; but `get_device_properties` with a
negative index raises the invalid-index assertion. -/
theorem negative_index_noop_amended (s : XpuState) (i : Int)
    (hc : s.compiled = true) (hb : s.badFork = false) (hi : i < 0)
    (hcur0 : 0 ≤ s.currentDevice)
    (hcur1 : s.currentDevice < (device_count s : Int)) :
    (set_device (DeviceRef.index i) s = (.ok (), (_lazy_init s).2) ∧
      ((_lazy_init s).2).currentDevice = s.currentDevice) ∧
    device.enter (device.new (DeviceRef.index i) s) s =
      (.ok { idx := i, prev_idx := -1 }, s) ∧
    get_device_properties DeviceRef.none s =
      (.ok (s.props s.currentDevice), (_lazy_init s).2) ∧
    get_device_properties (DeviceRef.index i) s =
      (.error .assertionInvalidDeviceIndex, (_lazy_init s).2) := by
  obtain ⟨hok, hinit⟩ := lazy_init_ok s hc hb
  refine ⟨⟨?_, lazy_init_currentDevice s⟩, ?_, ?_, ?_⟩
  · rw [set_device, hok]
    simp only [_get_device_index]
    rw [if_neg (by omega)]
  · rw [device.enter, device.new, _exchange_device]
    simp only [_get_device_index, _is_compiled, hc]
    rw [if_neg (by simp), if_pos hi]
  · have hres : _get_device_index DeviceRef.none (_lazy_init s).2 =
        s.currentDevice := by
      simp only [_get_device_index, lazy_init_device_count,
        lazy_init_currentDevice]
      rw [if_pos (by omega)]
    rw [get_device_properties, hok]
    simp only [hres, lazy_init_device_count]
    rw [if_neg (by omega)]
    simp [_get_device_properties]
  · exact get_device_properties_out_of_range s i hc hb (Or.inl hi)

/-- C1: entering the device guard with index A from current device B (both in
range) and then exiting leaves the active device equal to B, on every exit
path: the `with` statement runs `__exit__` whether the guarded block returns
normally or raises, so the conclusion holds for an arbitrary guarded block,
including blocks that raise and blocks that move the current device, provided
the block does not change whether the backend is compiled in. -/
theorem device_guard_round_trip (A B : Int)
    (body : XpuState → Except XpuError Unit × XpuState) (s : XpuState)
    (hbody : ∀ t, ((body t).2).compiled = t.compiled)
    (hA0 : 0 ≤ A) (hA1 : A < (device_count s : Int))
    (hB0 : 0 ≤ B) (hB1 : B < (device_count s : Int))
    (hcur : s.currentDevice = B) :
    ((with_device (DeviceRef.index A) body s).2).currentDevice = B := by
  subst hcur
  have hcomp : s.compiled = true := by
    by_contra hcp
    rw [Bool.not_eq_true] at hcp
    have : device_count s = 0 := by simp [device_count, _is_compiled, hcp]
    omega
  have hent : device.enter (device.new (DeviceRef.index A) s) s =
      (.ok { idx := A, prev_idx := s.currentDevice },
       { s with currentDevice := A }) := by
    rw [device.enter, device.new, _exchange_device]
    simp only [_get_device_index, _is_compiled, hcomp]
    rw [if_neg (by simp), if_neg (by omega)]
  rcases hb : body { s with currentDevice := A } with ⟨r, s₂⟩
  have hcomp₂ : s₂.compiled = true := by
    have h := hbody { s with currentDevice := A }
    rw [hb] at h
    exact h.trans hcomp
  have hexit : device.exit { idx := A, prev_idx := s.currentDevice } s₂ =
      (.ok { idx := s₂.currentDevice, prev_idx := s.currentDevice },
       { s₂ with currentDevice := s.currentDevice }) := by
    rw [device.exit, _maybe_exchange_device]
    simp only [_is_compiled, hcomp₂]
    rw [if_neg (by simp), if_neg (by omega)]
  rw [with_device, hent]
  simp only [hb, hexit]

/-- Body of a guarded block that raises, exercising the error exit path of
the device guard in the instance below. -/
def raisingBody : XpuState → Except XpuError Unit × XpuState :=
  fun t => (.error .notImplemented, t)

theorem device_guard_round_trip_witness :
    ((with_device (DeviceRef.index 1) raisingBody testState).2).currentDevice
      = 0 :=
  device_guard_round_trip 1 0 raisingBody testState (fun _ => rfl)
    (by decide) (by decide) (by decide) (by decide) rfl

/-- C4: the initialization flag is monotonic over any sequence of public
operations and the native initialization call runs at most once: starting
from a state where the native call has never run, no operation sequence makes
the counter of native initialization calls exceed one, and once the flag is
set, every single operation keeps it set and performs no further native
initialization. -/
theorem lazy_init_monotone_at_most_once (ops : List Op) (s : XpuState)
    (h : s.nativeInitCount = 0) :
    (runOps ops s).nativeInitCount ≤ 1 ∧
    (∀ t op, t.initialized = true →
      (execOp op t).initialized = true ∧
      (execOp op t).nativeInitCount = t.nativeInitCount) := by
  constructor
  · have := (stepInv_runOps ops s).2.2
    omega
  · intro t op ht
    obtain ⟨m, e, _⟩ := stepInv_execOp op t
    have h1 := m ht
    exact ⟨h1, e (h1.trans ht.symm)⟩

theorem lazy_init_monotone_at_most_once_witness :
    (runOps [Op.initOp, Op.initOp, Op.currentDeviceOp,
        Op.getPropsOp (DeviceRef.index 0)] testState).nativeInitCount ≤ 1 ∧
    (∀ t op, t.initialized = true →
      (execOp op t).initialized = true ∧
      (execOp op t).nativeInitCount = t.nativeInitCount) :=
  lazy_init_monotone_at_most_once
    [Op.initOp, Op.initOp, Op.currentDeviceOp,
     Op.getPropsOp (DeviceRef.index 0)] testState rfl

/-- C2: on a live state whose current stream on the current device D0 is S0
and whose per-device stream table is consistent, entering the stream guard
with a target stream S1 living on a different device D1 and then exiting
leaves the current stream of D0 equal to S0, the current stream of D1 equal
to its pre-entry value, and the active device equal to D0; the exit restores
the destination device's previous stream and then the original device's
previous stream, as modelled by the two ordered restorations inside
`StreamContext.exit`. -/
theorem stream_guard_cross_device_round_trip (s : XpuState) (S1 : Stream)
    (hc : s.compiled = true) (hb : s.badFork = false)
    (hD1lo : 0 ≤ S1.device_index)
    (hD1hi : S1.device_index < (device_count s : Int))
    (hD0lo : 0 ≤ s.currentDevice)
    (hD0hi : s.currentDevice < (device_count s : Int))
    (hne : S1.device_index ≠ s.currentDevice)
    (hw0 : (s.streams s.currentDevice).device_index = s.currentDevice)
    (hw1 : (s.streams S1.device_index).device_index = S1.device_index) :
    ∃ c t, StreamContext.enter (StreamContext.new (Option.some S1) s) s =
        (.ok c, t) ∧
      ∃ u, StreamContext.exit c t = (.ok (), u) ∧
        u.streams s.currentDevice = s.streams s.currentDevice ∧
        u.streams S1.device_index = s.streams S1.device_index ∧
        u.currentDevice = s.currentDevice := by
  obtain ⟨hok, hTinit⟩ := lazy_init_ok s hc hb
  have hcnt : 0 < device_count s := by omega
  have hne1 : ¬s.currentDevice = -1 := by omega
  have hne2 : ¬s.currentDevice = S1.device_index := by omega
  have hTb : ((_lazy_init s).2).badFork = false := by
    rw [lazy_init_badFork]; exact hb
  have hTc : ((_lazy_init s).2).compiled = true := by
    rw [lazy_init_compiled]; exact hc
  have hnew : StreamContext.new (Option.some S1) s =
      { stream := Option.some S1, idx := s.currentDevice,
        src_prev_stream := Option.none, dst_prev_stream := Option.none } := by
    rw [StreamContext.new]
    simp only [_get_device_index]
    rw [if_pos hcnt]
  have hres : _get_device_index DeviceRef.none (_lazy_init s).2 =
      s.currentDevice := by
    simp only [_get_device_index, lazy_init_device_count,
      lazy_init_currentDevice]
    rw [if_pos hcnt]
  have h2 : current_stream DeviceRef.none s =
      (.ok (s.streams s.currentDevice), (_lazy_init s).2) := by
    rw [current_stream, hok]
    simp only [hres, _xpu_getCurrentStream]
    rw [if_neg (by omega)]
    simp [lazy_init_streams]
  have hT1i : is_initialized
      { (_lazy_init s).2 with currentDevice := S1.device_index } = true := by
    simp [is_initialized, _is_in_bad_fork, hTinit, hTb, hb]
  have hT2i : is_initialized
      { (_lazy_init s).2 with currentDevice := s.currentDevice } = true := by
    simp [is_initialized, _is_in_bad_fork, hTinit, hTb, hb]
  have h3 : device.enter (device.new (DeviceRef.index S1.device_index)
        (_lazy_init s).2) (_lazy_init s).2 =
      (.ok { idx := S1.device_index, prev_idx := s.currentDevice },
       { (_lazy_init s).2 with currentDevice := S1.device_index }) := by
    rw [device.enter]
    simp only [device.new, _get_device_index]
    rw [exchange_device_nonneg S1.device_index (_lazy_init s).2 hTc hD1lo]
    simp [lazy_init_currentDevice]
  have h4 : current_stream (DeviceRef.index S1.device_index)
        { (_lazy_init s).2 with currentDevice := S1.device_index } =
      (.ok (s.streams S1.device_index),
       { (_lazy_init s).2 with currentDevice := S1.device_index }) := by
    rw [current_stream_index_eq S1.device_index _ hT1i hD1lo]
    simp [lazy_init_streams]
  have h5 : device.exit
        { idx := S1.device_index, prev_idx := s.currentDevice }
        { (_lazy_init s).2 with currentDevice := S1.device_index } =
      (.ok { idx := S1.device_index, prev_idx := s.currentDevice },
       { (_lazy_init s).2 with currentDevice := s.currentDevice }) := by
    rw [device.exit]
    rw [maybe_exchange_device_nonneg s.currentDevice _ (by simp [hTc, hc]) hD0lo]
  have h6 := set_stream_some_eq S1
      { (_lazy_init s).2 with currentDevice := s.currentDevice } hT2i
  rw [hnew]
  simp only [StreamContext.enter, h2, h3, h4, h5, h6, Stream.device, hw0]
  rw [if_neg hne1, if_neg hne2]
  refine ⟨_, _, rfl, ?_⟩
  have hEEi : is_initialized
      { (_lazy_init s).2 with
        currentDevice := s.currentDevice
        streams := fun i => if i = S1.device_index then S1
          else (_lazy_init s).2.streams i } = true := by
    simp [is_initialized, _is_in_bad_fork, hTinit, hb]
  have h7 := set_stream_some_eq (s.streams S1.device_index)
      { (_lazy_init s).2 with
        currentDevice := s.currentDevice
        streams := fun i => if i = S1.device_index then S1
          else (_lazy_init s).2.streams i } hEEi
  rw [hw1] at h7
  have hU1i : is_initialized
      { (_lazy_init s).2 with
        currentDevice := s.currentDevice
        streams := fun i =>
          if i = S1.device_index then s.streams S1.device_index
          else if i = S1.device_index then S1
            else (_lazy_init s).2.streams i } = true := by
    simp [is_initialized, _is_in_bad_fork, hTinit, hb]
  have h8 := set_stream_some_eq (s.streams s.currentDevice)
      { (_lazy_init s).2 with
        currentDevice := s.currentDevice
        streams := fun i =>
          if i = S1.device_index then s.streams S1.device_index
          else if i = S1.device_index then S1
            else (_lazy_init s).2.streams i } hU1i
  rw [hw0] at h8
  simp only [StreamContext.exit, Stream.device, hw0, h7, h8]
  rw [if_neg hne1, if_neg hne2]
  refine ⟨_, rfl, ?_, ?_, ?_⟩
  · simp
  · simp [hne]
  · simp

/-- Concrete target stream on device 1, used while the current device of
`testState` is 0. -/
def testS1 : Stream :=
  { stream_id := 42, device_index := 1, device_type := 12 }

theorem stream_guard_cross_device_round_trip_witness :
    ∃ c t, StreamContext.enter (StreamContext.new (Option.some testS1)
        testState) testState = (.ok c, t) ∧
      ∃ u, StreamContext.exit c t = (.ok (), u) ∧
        u.streams testState.currentDevice =
          testState.streams testState.currentDevice ∧
        u.streams testS1.device_index =
          testState.streams testS1.device_index ∧
        u.currentDevice = testState.currentDevice :=
  stream_guard_cross_device_round_trip testState testS1 rfl rfl
    (by decide) (by decide) (by decide) (by decide) (by decide) rfl rfl

theorem negative_index_noop_amended_witness :
    (set_device (DeviceRef.index (-3)) testState =
        (.ok (), (_lazy_init testState).2) ∧
      ((_lazy_init testState).2).currentDevice = testState.currentDevice) ∧
    device.enter (device.new (DeviceRef.index (-3)) testState) testState =
      (.ok { idx := -3, prev_idx := -1 }, testState) ∧
    get_device_properties DeviceRef.none testState =
      (.ok (testState.props testState.currentDevice),
       (_lazy_init testState).2) ∧
    get_device_properties (DeviceRef.index (-3)) testState =
      (.error .assertionInvalidDeviceIndex, (_lazy_init testState).2) :=
  negative_index_noop_amended testState (-3) rfl rfl (by decide) (by decide)
    (by decide)

end TorchXpu
